import Mathlib

/-!
# ElectricTariffsApp — verification of the billing / reading-consistency engine

Shallow embedding of `src/core/actions.py`, `src/core/models.py` and
`src/core/config.py`. Python floats are modelled as exact rationals (`ℚ`);
`datetime` values are modelled as rational timestamps measured in hours;
`date` values as integer ordinals. Python exceptions are modelled with
`Except`. Message strings that the source builds with number formatting are
modelled as their constant prefixes (no claim depends on message text).
In-place mutation of the reading list by the cascade recalculator is
modelled by returning the new list alongside the list of modified readings.
-/

namespace ElectricTariffs

/-! ## Configuration constants (src/core/config.py, default values) -/

def MAX_MEDIDOR : ℚ := 99999.9

def UMBRAL_ROLLOVER : ℚ := 0.95

def VINCULADO_EDIT_HOURS : ℚ := 48

/-! ## Domain model (src/core/models.py) -/

inductive RolUsuario where
  | admin
  | user
deriving DecidableEq, Repr

inductive EstadoUsuario where
  | activo
  | inactivo
deriving DecidableEq, Repr

inductive TemaPreferido where
  | oscuro
  | claro
deriving DecidableEq, Repr

structure Usuario where
  id : Option ℤ
  nombre : String
  username : String
  password_hash : String
  rol : RolUsuario
  estado : EstadoUsuario
  debe_cambiar_pass : Bool
  tema_preferido : TemaPreferido
  created_at : Option ℚ
deriving DecidableEq, Repr

def Usuario.es_admin (u : Usuario) : Bool :=
  decide (u.rol = RolUsuario.admin)

structure Medidor where
  id : Option ℤ
  propietario_id : ℤ
  etiqueta : String
  numero_serie : Option String
  umbral_alerta : Option ℚ
  created_at : Option ℚ
deriving DecidableEq, Repr

structure Tarifa where
  id : Option ℤ
  limite_min : ℚ
  limite_max : Option ℚ
  precio_kwh : ℚ
deriving DecidableEq, Repr

structure Lectura where
  id : Option ℤ
  medidor_id : ℤ
  autor_user_id : ℤ
  fecha_inicio : Option ℤ
  fecha_fin : Option ℤ
  lectura_anterior : ℚ
  lectura_actual : ℚ
  consumo_kwh : ℚ
  importe_total : ℚ
  es_rollover : Bool
  created_at : Option ℚ
  updated_at : Option ℚ
deriving DecidableEq, Repr

/-- Standard 10-tier UNE schedule (`TARIFAS_UNE_DEFAULT` in src/core/models.py). -/
def TARIFAS_UNE_DEFAULT : List Tarifa :=
  [ ⟨none, 0, some 100, 0.40⟩,
    ⟨none, 100, some 150, 1.30⟩,
    ⟨none, 150, some 200, 1.75⟩,
    ⟨none, 200, some 250, 3.00⟩,
    ⟨none, 250, some 300, 4.00⟩,
    ⟨none, 300, some 350, 7.50⟩,
    ⟨none, 350, some 400, 9.00⟩,
    ⟨none, 400, some 450, 10.00⟩,
    ⟨none, 450, some 500, 15.00⟩,
    ⟨none, 500, none, 25.00⟩ ]

/-! ## Algorithm 1: tiered price calculation (`calcular_importe`) -/

/-- Stable insertion step: `sorted(..., key=lambda t: t.limite_min)` is a
stable sort, so an element is inserted after all elements with a strictly
smaller key and before all elements with an equal or larger key. -/
def insertarTarifa (t : Tarifa) : List Tarifa → List Tarifa
  | [] => [t]
  | u :: us =>
    if u.limite_min < t.limite_min then u :: insertarTarifa t us
    else t :: u :: us

/-- Model of `sorted(tarifas, key=lambda t: t.limite_min)` (stable). -/
def sortTarifas (ts : List Tarifa) : List Tarifa :=
  ts.foldr insertarTarifa []

/-- The `for tarifa in tarifas_ordenadas` loop of `calcular_importe`,
carrying `restante`; the accumulated `total` is returned. -/
def importeLoop : List Tarifa → ℚ → ℚ
  | [], _ => 0
  | t :: ts, restante =>
    if restante ≤ 0 then 0
    else
      match t.limite_max with
      | none => restante * t.precio_kwh
      | some lmax =>
        let rango := lmax - t.limite_min
        if restante > rango then
          rango * t.precio_kwh + importeLoop ts (restante - rango)
        else
          restante * t.precio_kwh

/-- Function `calcular_importe(consumo_total, tarifas)` from src/core/actions.py. -/
def calcular_importe (consumo_total : ℚ) (tarifas : List Tarifa) : ℚ :=
  if consumo_total ≤ 0 then 0
  else if tarifas = [] then 0
  else importeLoop (sortTarifas tarifas) consumo_total

/-! ## Algorithm 2: rollover detection (`detectar_rollover`, `calcular_consumo`) -/

structure ResultadoRollover where
  es_rollover : Bool
  consumo : ℚ
  requiere_confirmacion : Bool
  mensaje : String
deriving DecidableEq, Repr

/-- Function `detectar_rollover(lectura_anterior, lectura_actual, max_medidor, umbral_rollover)` from src/core/actions.py. -/
def detectar_rollover (lectura_anterior lectura_actual max_medidor umbral_rollover : ℚ) :
    ResultadoRollover :=
  if lectura_actual ≥ lectura_anterior then
    { es_rollover := false
      consumo := lectura_actual - lectura_anterior
      requiere_confirmacion := false
      mensaje := "Consumo normal" }
  else
    let umbral_valor := max_medidor * umbral_rollover
    if lectura_anterior ≥ umbral_valor then
      { es_rollover := true
        consumo := (max_medidor - lectura_anterior) + lectura_actual
        requiere_confirmacion := true
        mensaje := "Se detectó reinicio del medidor" }
    else
      { es_rollover := false
        consumo := 0
        requiere_confirmacion := true
        mensaje := "Error: Lectura actual menor que anterior" }

/-- Domain errors raised by `calcular_consumo` (src/core/errors.py). -/
inductive ConsumoError where
  | rolloverNoConfirmado (consumo : ℚ)
  | lecturaIncoherente (anterior actual : ℚ)
deriving DecidableEq, Repr

/-- Function `calcular_consumo(lectura_anterior, lectura_actual, confirmar_rollover)`:
wraps `detectar_rollover` (with the default meter maximum and threshold) and
turns the unconfirmed / incoherent cases into errors. -/
def calcular_consumo (lectura_anterior lectura_actual : ℚ) (confirmar_rollover : Bool) :
    Except ConsumoError (ℚ × Bool) :=
  let resultado := detectar_rollover lectura_anterior lectura_actual MAX_MEDIDOR UMBRAL_ROLLOVER
  if resultado.es_rollover then
    if ¬confirmar_rollover ∧ resultado.requiere_confirmacion then
      Except.error (ConsumoError.rolloverNoConfirmado resultado.consumo)
    else
      Except.ok (resultado.consumo, true)
  else if resultado.consumo = 0 ∧ resultado.requiere_confirmacion then
    Except.error (ConsumoError.lecturaIncoherente lectura_anterior lectura_actual)
  else
    Except.ok (resultado.consumo, false)

/-! ## Algorithm 3: cascade recalculation (`recalcular_lecturas_afectadas`)

The Python function mutates the readings in place and returns the list of
modified readings. It is modelled as a function returning the pair
(new reading list, list of modified readings); `datetime.now()` is passed
in as the parameter `now`. -/

/-- The epsilon `0.01` used by the cascade recalculator's dirty checks. -/
def epsilonRecalculo : ℚ := 0.01

/-- Step 1 of one loop iteration: update `lectura_anterior` from the
previous reading's `lectura_actual` if it differs, marking the reading
as modified. -/
def pasoAnterior (prev : ℚ) (lectura : Lectura) : Lectura × Bool :=
  if lectura.lectura_anterior ≠ prev then
    ({ lectura with lectura_anterior := prev }, true)
  else
    (lectura, false)

/-- Step 2 of one loop iteration: re-run `calcular_consumo`, keeping the
existing `es_rollover` flag as the confirmation input; on failure keep the
existing consumption/rollover fields; on success update them only when the
new consumption differs by more than the epsilon. -/
def pasoConsumo (lectura : Lectura) (modificada : Bool) : Lectura × Bool :=
  match calcular_consumo lectura.lectura_anterior lectura.lectura_actual lectura.es_rollover with
  | Except.ok (nuevo_consumo, es_rollover) =>
    if |lectura.consumo_kwh - nuevo_consumo| > epsilonRecalculo then
      ({ lectura with consumo_kwh := nuevo_consumo, es_rollover := es_rollover }, true)
    else
      (lectura, modificada)
  | Except.error _ => (lectura, modificada)

/-- Step 3 of one loop iteration: recompute the billed amount with
`calcular_importe`, updating it only when it differs by more than the
epsilon. -/
def pasoImporte (tarifas : List Tarifa) (lectura : Lectura) (modificada : Bool) :
    Lectura × Bool :=
  let nuevo_importe := calcular_importe lectura.consumo_kwh tarifas
  if |lectura.importe_total - nuevo_importe| > epsilonRecalculo then
    ({ lectura with importe_total := nuevo_importe }, true)
  else
    (lectura, modificada)

/-- One full iteration of the `for i in range(...)` loop body (for `i ≠ 0`),
given the previous reading's `lectura_actual`; a modified reading gets
`updated_at := now`. -/
def procesarLectura (tarifas : List Tarifa) (now prev : ℚ) (lectura : Lectura) :
    Lectura × Bool :=
  let p1 := pasoAnterior prev lectura
  let p2 := pasoConsumo p1.1 p1.2
  let p3 := pasoImporte tarifas p2.1 p2.2
  if p3.2 then ({ p3.1 with updated_at := some now }, true) else (p3.1, false)

/-- The loop from the starting index to the end of the list, threading the
previous reading's `lectura_actual`; returns the rewritten suffix and the
modified readings in order. -/
def recalcLoop (tarifas : List Tarifa) (now : ℚ) :
    ℚ → List Lectura → List Lectura × List Lectura
  | _, [] => ([], [])
  | prev, l :: ls =>
    let p := procesarLectura tarifas now prev l
    let resto := recalcLoop tarifas now p.1.lectura_actual ls
    (p.1 :: resto.1, if p.2 then p.1 :: resto.2 else resto.2)

/-- Placeholder reading used only to satisfy totality of a list lookup that
is always in range when reached. -/
def lecturaNula : Lectura :=
  ⟨none, 0, 0, none, none, 0, 0, 0, 0, false, none, none⟩

/-- Function `recalcular_lecturas_afectadas(lecturas, tarifas, desde_indice)` from
src/core/actions.py: readings before `max(desde_indice, 1)` are untouched
(index 0 is always skipped); the rest are reprocessed in order. -/
def recalcular_lecturas_afectadas (lecturas : List Lectura) (tarifas : List Tarifa)
    (desde_indice : ℕ) (now : ℚ) : List Lectura × List Lectura :=
  if lecturas = [] ∨ lecturas.length ≤ desde_indice then
    (lecturas, [])
  else
    let start := max desde_indice 1
    let prev := ((lecturas.get? (start - 1)).getD lecturaNula).lectura_actual
    let resto := recalcLoop tarifas now prev (lecturas.drop start)
    (lecturas.take start ++ resto.1, resto.2)

/-! ## Tariff tier validation (`validar_tramos_tarifas`) -/

/-- The `for i in range(len(tarifas_ordenadas) - 1)` consecutiveness loop:
a non-final tier with unbounded `limite_max`, or a `limite_max` different
from the next tier's `limite_min`, is an error. -/
def validarConsecutividad : List Tarifa → Except String Unit
  | a :: b :: rest =>
    match a.limite_max with
    | none => Except.error "Solo el último tramo puede tener límite máximo infinito"
    | some m =>
      if m ≠ b.limite_min then
        Except.error "Gap o solapamiento entre tramos"
      else
        validarConsecutividad (b :: rest)
  | _ => Except.ok ()

/-- Function `validar_tramos_tarifas(tarifas)` from src/core/actions.py. -/
def validar_tramos_tarifas (tarifas : List Tarifa) : Except String Unit :=
  if tarifas = [] then
    Except.error "Debe existir al menos un tramo de tarifa"
  else
    match sortTarifas tarifas with
    | [] => Except.ok ()  -- unreachable: sorting a nonempty list is nonempty
    | t :: ts =>
      if t.limite_min ≠ 0 then
        Except.error "El primer tramo debe empezar en 0 kWh"
      else
        match validarConsecutividad (t :: ts) with
        | Except.error e => Except.error e
        | Except.ok _ =>
          match (t :: ts).getLast? with
          | some u =>
            if u.limite_max ≠ none then
              Except.error "El último tramo debe tener límite máximo infinito (NULL)"
            else
              Except.ok ()
          | none => Except.ok ()  -- unreachable on a nonempty list

/-! ## Edit permission (`verificar_permiso_edicion_lectura`) -/

inductive PermisoError where
  | permisoDenegado (mensaje : String)
  | tiempoEdicionExpirado (horas : ℚ)
deriving DecidableEq, Repr

/-- Function `verificar_permiso_edicion_lectura(usuario, lectura, medidor, es_propietario)`
from src/core/actions.py; `datetime.now()` is passed in as `now` (hours). -/
def verificar_permiso_edicion_lectura (usuario : Usuario) (lectura : Lectura)
    (medidor : Medidor) (es_propietario : Bool) (now : ℚ) : Except PermisoError Unit :=
  if usuario.es_admin then
    Except.ok ()
  else if es_propietario then
    Except.ok ()
  else if some lectura.autor_user_id ≠ usuario.id then
    Except.error (PermisoError.permisoDenegado "Solo puedes editar las lecturas que tú registraste")
  else
    match lectura.created_at with
    | some created =>
      if now - created > VINCULADO_EDIT_HOURS then
        Except.error (PermisoError.tiempoEdicionExpirado VINCULADO_EDIT_HOURS)
      else
        Except.ok ()
    | none => Except.ok ()

/-! ## Claim C2 — rollover classification -/

/-- C2: for all previous/current readings, meter maximum and threshold
fraction, `detectar_rollover` classifies: a non-decrease as normal
consumption `current - previous` without confirmation; a decrease with
`previous ≥ meter_max * fraction` (inclusive) as rollover with consumption
`(meter_max - previous) + current` requiring confirmation; and a decrease
with `previous` strictly below the threshold as an anomaly (not rollover,
consumption `0`, confirmation required). -/
theorem c2_detectar_rollover_clasificacion (prev cur mmax umbral : ℚ) :
    (cur ≥ prev →
      (detectar_rollover prev cur mmax umbral).es_rollover = false ∧
      (detectar_rollover prev cur mmax umbral).consumo = cur - prev ∧
      (detectar_rollover prev cur mmax umbral).requiere_confirmacion = false) ∧
    (cur < prev → prev ≥ mmax * umbral →
      (detectar_rollover prev cur mmax umbral).es_rollover = true ∧
      (detectar_rollover prev cur mmax umbral).consumo = (mmax - prev) + cur ∧
      (detectar_rollover prev cur mmax umbral).requiere_confirmacion = true) ∧
    (cur < prev → prev < mmax * umbral →
      (detectar_rollover prev cur mmax umbral).es_rollover = false ∧
      (detectar_rollover prev cur mmax umbral).consumo = 0 ∧
      (detectar_rollover prev cur mmax umbral).requiere_confirmacion = true) := by
  unfold detectar_rollover
  refine ⟨fun h => ?_, fun h1 h2 => ?_, fun h1 h2 => ?_⟩
  · rw [if_pos h]
    exact ⟨rfl, rfl, rfl⟩
  · rw [if_neg (not_le.mpr h1)]
    rw [if_pos h2]
    exact ⟨rfl, rfl, rfl⟩
  · rw [if_neg (not_le.mpr h1)]
    rw [if_neg (not_le.mpr h2)]
    exact ⟨rfl, rfl, rfl⟩

/-- C2 witness: the three branches at concrete inputs, with the default
meter maximum `99999.9` and threshold fraction `0.95`. -/
theorem c2_detectar_rollover_witness :
    ((detectar_rollover 1000 1200 99999.9 0.95).es_rollover = false ∧
      (detectar_rollover 1000 1200 99999.9 0.95).consumo = 200) ∧
    ((detectar_rollover 99500 150 99999.9 0.95).es_rollover = true ∧
      (detectar_rollover 99500 150 99999.9 0.95).consumo = 649.9) ∧
    ((detectar_rollover 50000 40000 99999.9 0.95).es_rollover = false ∧
      (detectar_rollover 50000 40000 99999.9 0.95).consumo = 0) := by
  have h1 := (c2_detectar_rollover_clasificacion 1000 1200 99999.9 0.95).1 (by norm_num)
  have h2 := (c2_detectar_rollover_clasificacion 99500 150 99999.9 0.95).2.1
    (by norm_num) (by norm_num)
  have h3 := (c2_detectar_rollover_clasificacion 50000 40000 99999.9 0.95).2.2
    (by norm_num) (by norm_num)
  exact ⟨⟨h1.1, h1.2.1.trans (by norm_num)⟩,
         ⟨h2.1, h2.2.1.trans (by norm_num)⟩,
         ⟨h3.1, h3.2.1⟩⟩

/-! ## Claim C1 — confirmation and the anomaly branch of `calcular_consumo` -/

/-- C1 counterexample: at `previous = 100`, `current = 50` — a decrease with
the previous reading below the rollover threshold, i.e. the anomaly case —
`calcular_consumo` with `confirmar_rollover = true` does NOT return the
computed consumption/rollover flag `(0, false)`: it fails with
`LecturaIncoherenteError` carrying both values, so confirmation does not
override the conservative default in the anomaly branch. -/
theorem c1_confirmacion_counterexample :
    (50 : ℚ) < 100 ∧ (100 : ℚ) < MAX_MEDIDOR * UMBRAL_ROLLOVER ∧
    calcular_consumo 100 50 true ≠ Except.ok ((0 : ℚ), false) ∧
    calcular_consumo 100 50 true = Except.error (ConsumoError.lecturaIncoherente 100 50) := by
  have h : calcular_consumo 100 50 true =
      Except.error (ConsumoError.lecturaIncoherente 100 50) := by
    norm_num [calcular_consumo, detectar_rollover, MAX_MEDIDOR, UMBRAL_ROLLOVER]
  refine ⟨by norm_num, by norm_num [MAX_MEDIDOR, UMBRAL_ROLLOVER], ?_, h⟩
  rw [h]
  intro hcontra
  exact Except.noConfusion hcontra

/-- C1 (amended): in the anomaly case of detection (current < previous and
previous strictly below the rollover threshold `MAX_MEDIDOR * UMBRAL_ROLLOVER`),
`calcular_consumo` fails with a `LecturaIncoherenteError` carrying both
values for EVERY value of `confirmar_rollover` — confirmation overrides the
conservative default only in the rollover branch, not in the anomaly branch. -/
theorem c1_resolucion_caso_anomalo (prev cur : ℚ) (h1 : cur < prev)
    (h2 : prev < MAX_MEDIDOR * UMBRAL_ROLLOVER) (confirmar : Bool) :
    calcular_consumo prev cur confirmar =
      Except.error (ConsumoError.lecturaIncoherente prev cur) := by
  unfold calcular_consumo detectar_rollover
  rw [if_neg (not_le.mpr h1)]
  simp only []
  rw [if_neg (not_le.mpr h2)]
  simp

/-- C1 (amended) witness: the anomaly input `(100, 50)` fails with
`LecturaIncoherenteError` even when confirmed. -/
theorem c1_resolucion_caso_anomalo_witness :
    calcular_consumo 100 50 true = Except.error (ConsumoError.lecturaIncoherente 100 50) :=
  c1_resolucion_caso_anomalo 100 50 (by norm_num)
    (by norm_num [MAX_MEDIDOR, UMBRAL_ROLLOVER]) true

/-! ## Claim C6 — concrete tiered prices under the UNE schedule -/

/-- C6: under the standard 10-tier UNE schedule, `calcular_importe` returns
exactly `40.0` for consumption `100`, `105.0` for `150`, `3867.5` for `550`
and `15117.5` for `1000`; any non-positive consumption, and any consumption
with an empty tariff list, yields `0.0`. -/
theorem c6_calcular_importe_une :
    calcular_importe 100 TARIFAS_UNE_DEFAULT = 40 ∧
    calcular_importe 150 TARIFAS_UNE_DEFAULT = 105 ∧
    calcular_importe 550 TARIFAS_UNE_DEFAULT = 3867.5 ∧
    calcular_importe 1000 TARIFAS_UNE_DEFAULT = 15117.5 ∧
    (∀ (tarifas : List Tarifa) (consumo : ℚ), consumo ≤ 0 →
      calcular_importe consumo tarifas = 0) ∧
    (∀ consumo : ℚ, calcular_importe consumo [] = 0) := by
  refine ⟨?_, ?_, ?_, ?_, ?_, ?_⟩
  · norm_num [calcular_importe, TARIFAS_UNE_DEFAULT, sortTarifas, insertarTarifa,
      importeLoop, List.cons_ne_nil]
  · norm_num [calcular_importe, TARIFAS_UNE_DEFAULT, sortTarifas, insertarTarifa,
      importeLoop, List.cons_ne_nil]
  · norm_num [calcular_importe, TARIFAS_UNE_DEFAULT, sortTarifas, insertarTarifa,
      importeLoop, List.cons_ne_nil]
  · norm_num [calcular_importe, TARIFAS_UNE_DEFAULT, sortTarifas, insertarTarifa,
      importeLoop, List.cons_ne_nil]
  · intro tarifas consumo hc
    unfold calcular_importe
    rw [if_pos hc]
  · intro consumo
    by_cases hc : consumo ≤ 0 <;> simp [calcular_importe, hc]

/-- C6 witness: the non-positive consumption part at `0` and `-5` under the
UNE schedule. -/
theorem c6_calcular_importe_une_witness :
    calcular_importe (-5) TARIFAS_UNE_DEFAULT = 0 ∧
    calcular_importe 0 TARIFAS_UNE_DEFAULT = 0 :=
  ⟨c6_calcular_importe_une.2.2.2.2.1 TARIFAS_UNE_DEFAULT (-5) (by norm_num),
   c6_calcular_importe_une.2.2.2.2.1 TARIFAS_UNE_DEFAULT 0 le_rfl⟩

/-! ## Claims C9 and C10 — edit permission -/

/-- C9: `verificar_permiso_edicion_lectura` succeeds unconditionally for an
admin or the meter's owner; a non-owner, non-admin user is denied with
`PermisoDenegadoError` when the reading's author differs from the user, and
with `TiempoEdicionExpiradoError` when the user authored the reading but
more than 48 hours have elapsed since its creation timestamp. -/
theorem c9_permiso_edicion_lectura (usuario : Usuario) (lectura : Lectura)
    (medidor : Medidor) (es_propietario : Bool) (now : ℚ) :
    ((usuario.es_admin = true ∨ es_propietario = true) →
      verificar_permiso_edicion_lectura usuario lectura medidor es_propietario now =
        Except.ok ()) ∧
    (usuario.es_admin = false → es_propietario = false →
      some lectura.autor_user_id ≠ usuario.id →
      verificar_permiso_edicion_lectura usuario lectura medidor es_propietario now =
        Except.error (PermisoError.permisoDenegado
          "Solo puedes editar las lecturas que tú registraste")) ∧
    (usuario.es_admin = false → es_propietario = false →
      some lectura.autor_user_id = usuario.id →
      ∀ created, lectura.created_at = some created → now - created > VINCULADO_EDIT_HOURS →
      verificar_permiso_edicion_lectura usuario lectura medidor es_propietario now =
        Except.error (PermisoError.tiempoEdicionExpirado VINCULADO_EDIT_HOURS)) := by
  refine ⟨fun h => ?_, fun ha hp hne => ?_, fun ha hp he created hc hlim => ?_⟩
  · rcases h with h | h
    · simp [verificar_permiso_edicion_lectura, h]
    · simp only [verificar_permiso_edicion_lectura, h]
      by_cases hAdm : usuario.es_admin <;> simp [hAdm]
  · simp [verificar_permiso_edicion_lectura, ha, hp, hne]
  · simp [verificar_permiso_edicion_lectura, ha, hp, he, hc, if_pos hlim]

/-- Concrete linked (non-owner, non-admin) user for the permission witnesses. -/
def usuarioVinculado : Usuario :=
  ⟨some 7, "Ana", "ana", "hash", RolUsuario.user, EstadoUsuario.activo, false,
    TemaPreferido.oscuro, none⟩

/-- Concrete meter for the permission witnesses. -/
def medidorEjemplo : Medidor :=
  ⟨some 1, 2, "Casa", none, none, none⟩

/-- Concrete reading authored by `usuarioVinculado` at timestamp 0 for the
permission witnesses. -/
def lecturaDeAna : Lectura :=
  ⟨some 3, 1, 7, none, none, 0, 10, 10, 4, false, some 0, none⟩

/-- C9 witness: a non-owner author editing 50 hours after creation is
denied with `TiempoEdicionExpiradoError`. -/
theorem c9_permiso_edicion_lectura_witness :
    verificar_permiso_edicion_lectura usuarioVinculado lecturaDeAna medidorEjemplo false 50 =
      Except.error (PermisoError.tiempoEdicionExpirado VINCULADO_EDIT_HOURS) :=
  (c9_permiso_edicion_lectura usuarioVinculado lecturaDeAna medidorEjemplo false 50).2.2
    rfl rfl rfl 0 rfl (by norm_num [VINCULADO_EDIT_HOURS])

/-- C10: for a non-owner, non-admin author, editing succeeds exactly when
the reading has no creation timestamp or at most 48 hours have elapsed — a
reading without `created_at` is editable indefinitely, and an edit at
exactly 48 elapsed hours is still permitted (the expiry comparison is
strict). -/
theorem c10_ventana_edicion_vinculado (usuario : Usuario) (lectura : Lectura)
    (medidor : Medidor) (es_propietario : Bool) (now : ℚ)
    (ha : usuario.es_admin = false) (hp : es_propietario = false)
    (he : some lectura.autor_user_id = usuario.id) :
    verificar_permiso_edicion_lectura usuario lectura medidor es_propietario now =
        Except.ok () ↔
      (lectura.created_at = none ∨
        ∃ created, lectura.created_at = some created ∧
          now - created ≤ VINCULADO_EDIT_HOURS) := by
  cases hc : lectura.created_at with
  | none => simp [verificar_permiso_edicion_lectura, ha, hp, he, hc]
  | some created =>
    by_cases hlim : now - created > VINCULADO_EDIT_HOURS
    · simp only [verificar_permiso_edicion_lectura, ha, hp, he, hc]
      simp only [Bool.false_eq_true, if_false, ne_eq, not_true_eq_false, if_pos hlim]
      constructor
      · intro hcontra
        exact absurd hcontra (by simp)
      · rintro (hnone | ⟨c, hcsome, hle⟩)
        · exact absurd hnone (by simp)
        · rw [Option.some_inj] at hcsome
          exact absurd hle (by rw [hcsome] at hlim; exact not_le.mpr hlim)
    · simp [verificar_permiso_edicion_lectura, ha, hp, he, hc, if_neg hlim]
      have hle := not_lt.mp hlim
      linarith

/-- C10 witness: at exactly 48 elapsed hours the non-owner author may still
edit. -/
theorem c10_ventana_edicion_vinculado_witness :
    verificar_permiso_edicion_lectura usuarioVinculado lecturaDeAna medidorEjemplo false 48 =
      Except.ok () :=
  (c10_ventana_edicion_vinculado usuarioVinculado lecturaDeAna medidorEjemplo false 48
      rfl rfl rfl).mpr
    (Or.inr ⟨0, rfl, by norm_num [VINCULADO_EDIT_HOURS]⟩)

/-! ## Claim C7 — monotonicity of tiered pricing -/

/-- A tier with a non-negative unit price whose bounded upper limit is at
least its lower limit (so its span is non-negative). -/
def tarifaCoherente (t : Tarifa) : Prop :=
  0 ≤ t.precio_kwh ∧ ∀ m, t.limite_max = some m → t.limite_min ≤ m

theorem importeLoop_nonneg (ts : List Tarifa) (h : ∀ t ∈ ts, tarifaCoherente t)
    (r : ℚ) : 0 ≤ importeLoop ts r := by
  induction ts generalizing r with
  | nil => simp [importeLoop]
  | cons t ts ih =>
    have ht := h t (List.mem_cons_self t ts)
    have hts : ∀ u ∈ ts, tarifaCoherente u := fun u hu => h u (List.mem_cons_of_mem t hu)
    simp only [importeLoop]
    by_cases hr : r ≤ 0
    · rw [if_pos hr]
    · rw [if_neg hr]
      have hr' : 0 ≤ r := le_of_lt (not_le.mp hr)
      split
      · exact mul_nonneg hr' ht.1
      · rename_i lmax hmax
        have hrango : 0 ≤ lmax - t.limite_min := sub_nonneg.mpr (ht.2 lmax hmax)
        by_cases hgt : r > lmax - t.limite_min
        · rw [if_pos hgt]
          exact add_nonneg (mul_nonneg hrango ht.1) (ih hts _)
        · rw [if_neg hgt]
          exact mul_nonneg hr' ht.1

theorem importeLoop_mono (ts : List Tarifa) (h : ∀ t ∈ ts, tarifaCoherente t)
    (a b : ℚ) (hab : a ≤ b) : importeLoop ts a ≤ importeLoop ts b := by
  induction ts generalizing a b with
  | nil => simp [importeLoop]
  | cons t ts ih =>
    have ht := h t (List.mem_cons_self t ts)
    have hts : ∀ u ∈ ts, tarifaCoherente u := fun u hu => h u (List.mem_cons_of_mem t hu)
    simp only [importeLoop]
    by_cases hb : b ≤ 0
    · rw [if_pos hb, if_pos (hab.trans hb)]
    · rw [if_neg hb]
      by_cases ha : a ≤ 0
      · rw [if_pos ha]
        have hb' : 0 ≤ b := le_of_lt (not_le.mp hb)
        split
        · exact mul_nonneg hb' ht.1
        · rename_i lmax hmax
          have hrango : 0 ≤ lmax - t.limite_min := sub_nonneg.mpr (ht.2 lmax hmax)
          by_cases hgt : b > lmax - t.limite_min
          · rw [if_pos hgt]
            exact add_nonneg (mul_nonneg hrango ht.1) (importeLoop_nonneg ts hts _)
          · rw [if_neg hgt]
            exact mul_nonneg hb' ht.1
      · rw [if_neg ha]
        have ha' : 0 < a := not_le.mp ha
        split
        · exact mul_le_mul_of_nonneg_right hab ht.1
        · rename_i lmax hmax
          have hrango : 0 ≤ lmax - t.limite_min := sub_nonneg.mpr (ht.2 lmax hmax)
          by_cases hbr : b > lmax - t.limite_min
          · rw [if_pos hbr]
            by_cases har : a > lmax - t.limite_min
            · rw [if_pos har]
              exact add_le_add_left (ih hts _ _ (by linarith)) _
            · rw [if_neg har]
              have h1 : a * t.precio_kwh ≤ (lmax - t.limite_min) * t.precio_kwh :=
                mul_le_mul_of_nonneg_right (not_lt.mp har) ht.1
              have h2 : 0 ≤ importeLoop ts (b - (lmax - t.limite_min)) :=
                importeLoop_nonneg ts hts _
              linarith
          · rw [if_neg hbr]
            have har : ¬a > lmax - t.limite_min := fun hcon => hbr (lt_of_lt_of_le hcon hab)
            rw [if_neg har]
            exact mul_le_mul_of_nonneg_right hab ht.1

theorem insertarTarifa_perm (t : Tarifa) (l : List Tarifa) :
    List.Perm (insertarTarifa t l) (t :: l) := by
  induction l with
  | nil => exact List.Perm.refl _
  | cons u us ih =>
    simp only [insertarTarifa]
    by_cases hlt : u.limite_min < t.limite_min
    · rw [if_pos hlt]
      exact (ih.cons u).trans (List.Perm.swap t u us)
    · rw [if_neg hlt]

theorem sortTarifas_perm (ts : List Tarifa) : List.Perm (sortTarifas ts) ts := by
  induction ts with
  | nil => exact List.Perm.refl _
  | cons t ts ih =>
    exact (insertarTarifa_perm t (sortTarifas ts)).trans (ih.cons t)

/-- Concrete tariff list refuting monotonicity as stated: all unit prices
are non-negative, but the middle tier's upper bound `5` is below its lower
bound `10`, giving it a negative span. -/
def cexTarifas : List Tarifa :=
  [ ⟨none, 0, some 10, 1⟩, ⟨none, 10, some 5, 10⟩, ⟨none, 20, none, 0⟩ ]

/-- C7 counterexample: `cexTarifas` has only non-negative unit prices, yet
`calcular_importe 10 cexTarifas = 10 > -40 = calcular_importe 11 cexTarifas`,
so tiered pricing is not monotone over arbitrary tariff lists with
non-negative prices. -/
theorem c7_monotonia_counterexample :
    (∀ t ∈ cexTarifas, 0 ≤ t.precio_kwh) ∧ (10 : ℚ) < 11 ∧
    ¬ calcular_importe 10 cexTarifas ≤ calcular_importe 11 cexTarifas := by
  have h10 : calcular_importe 10 cexTarifas = 10 := by
    norm_num [calcular_importe, cexTarifas, sortTarifas, insertarTarifa, importeLoop,
      List.cons_ne_nil]
  have h11 : calcular_importe 11 cexTarifas = -40 := by
    norm_num [calcular_importe, cexTarifas, sortTarifas, insertarTarifa, importeLoop,
      List.cons_ne_nil]
  refine ⟨?_, by norm_num, ?_⟩
  · intro t ht
    fin_cases ht <;> norm_num
  · rw [h10, h11]
    norm_num

/-- C7 (amended): tiered pricing is monotone for every tariff list whose
tiers all have non-negative `precio_kwh` AND whose bounded tiers have
`limite_min ≤ limite_max` (non-negative spans): for all `a < b`,
`calcular_importe a tarifas ≤ calcular_importe b tarifas`. -/
theorem c7_monotonia_importe (tarifas : List Tarifa)
    (h : ∀ t ∈ tarifas, 0 ≤ t.precio_kwh ∧ ∀ m, t.limite_max = some m → t.limite_min ≤ m)
    (a b : ℚ) (hab : a < b) :
    calcular_importe a tarifas ≤ calcular_importe b tarifas := by
  have hsorted : ∀ t ∈ sortTarifas tarifas, tarifaCoherente t := by
    intro t ht
    exact h t ((sortTarifas_perm tarifas).mem_iff.mp ht)
  unfold calcular_importe
  by_cases hb : b ≤ 0
  · rw [if_pos hb, if_pos (le_of_lt (lt_of_lt_of_le hab hb))]
  · by_cases hnil : tarifas = []
    · simp [hnil, sortTarifas, importeLoop]
    · simp only [if_neg hb, if_neg hnil]
      by_cases ha : a ≤ 0
      · rw [if_pos ha]
        exact importeLoop_nonneg _ hsorted b
      · rw [if_neg ha]
        exact importeLoop_mono _ hsorted a b (le_of_lt hab)

/-- C7 (amended) witness: the UNE schedule satisfies both hypotheses, and
`calcular_importe 100 ≤ calcular_importe 150` under it. -/
theorem c7_monotonia_importe_witness :
    calcular_importe 100 TARIFAS_UNE_DEFAULT ≤ calcular_importe 150 TARIFAS_UNE_DEFAULT := by
  refine c7_monotonia_importe TARIFAS_UNE_DEFAULT ?_ 100 150 (by norm_num)
  intro t ht
  fin_cases ht <;> refine ⟨by norm_num, fun m hm => ?_⟩
  all_goals
    first
      | (injection hm with h2
         subst h2
         norm_num)
      | injection hm

/-! ## Claim C8 — tariff tier validation -/

theorem insertarTarifa_ne_nil (t : Tarifa) (l : List Tarifa) : insertarTarifa t l ≠ [] := by
  cases l with
  | nil => simp [insertarTarifa]
  | cons u us =>
    simp only [insertarTarifa]
    split <;> simp

theorem sortTarifas_ne_nil (ts : List Tarifa) (h : ts ≠ []) : sortTarifas ts ≠ [] := by
  cases ts with
  | nil => exact absurd rfl h
  | cons t ts => exact insertarTarifa_ne_nil t (sortTarifas ts)

/-- The consecutiveness loop errs exactly when some adjacent pair of the
(sorted) list has `limite_max` different from the next `limite_min`
(including an unbounded `limite_max` in a non-final position). -/
theorem validarConsecutividad_error_iff (l : List Tarifa) :
    (∃ e, validarConsecutividad l = Except.error e) ↔
      ∃ i a b, l.get? i = some a ∧ l.get? (i + 1) = some b ∧
        a.limite_max ≠ some b.limite_min := by
  induction l with
  | nil =>
    constructor
    · rintro ⟨e, he⟩
      simp [validarConsecutividad] at he
    · rintro ⟨i, a, b, ha, hb, hne⟩
      simp at ha
  | cons a l ih =>
    cases l with
    | nil =>
      constructor
      · rintro ⟨e, he⟩
        simp [validarConsecutividad] at he
      · rintro ⟨i, x, y, hx, hy, hne⟩
        cases i <;> simp at hy
    | cons b rest =>
      constructor
      · rintro ⟨e, he⟩
        simp only [validarConsecutividad] at he
        split at he
        · rename_i hmax
          exact ⟨0, a, b, rfl, rfl, by simp [hmax]⟩
        · rename_i m hmax
          split at he
          · rename_i hm
            exact ⟨0, a, b, rfl, rfl, by simp [hmax, hm]⟩
          · rename_i hm
            obtain ⟨i, x, y, hx, hy, hne⟩ := ih.mp ⟨e, he⟩
            exact ⟨i + 1, x, y, by simpa using hx, by simpa using hy, hne⟩
      · rintro ⟨i, x, y, hx, hy, hne⟩
        cases i with
        | zero =>
          rw [List.get?_cons_zero, Option.some_inj] at hx
          rw [List.get?_cons_succ, List.get?_cons_zero, Option.some_inj] at hy
          subst hx
          subst hy
          cases hmax : a.limite_max with
          | none =>
            exact ⟨"Solo el último tramo puede tener límite máximo infinito",
              by simp [validarConsecutividad, hmax]⟩
          | some m =>
            have hm : m ≠ b.limite_min := by
              rw [hmax] at hne
              simpa using hne
            exact ⟨"Gap o solapamiento entre tramos",
              by simp [validarConsecutividad, hmax, hm]⟩
        | succ i =>
          have hx' : (b :: rest).get? i = some x := by simpa using hx
          have hy' : (b :: rest).get? (i + 1) = some y := by simpa using hy
          obtain ⟨e, he⟩ := ih.mpr ⟨i, x, y, hx', hy', hne⟩
          cases hmax : a.limite_max with
          | none =>
            exact ⟨"Solo el último tramo puede tener límite máximo infinito",
              by simp [validarConsecutividad, hmax]⟩
          | some m =>
            by_cases hm : m ≠ b.limite_min
            · exact ⟨"Gap o solapamiento entre tramos",
                by simp [validarConsecutividad, hmax, hm]⟩
            · refine ⟨e, ?_⟩
              simp only [validarConsecutividad, hmax, if_neg hm]
              exact he

/-- The invalid-tier-set condition of the specification, phrased on the
list sorted by `limite_min`: empty set; lowest tier not starting at 0; a
non-final tier with unbounded `limite_max`; an adjacent pair whose bounds
do not match exactly; or a final tier with bounded `limite_max`. -/
def tramosInvalidos (tarifas : List Tarifa) : Prop :=
  tarifas = [] ∨
  (∃ a, (sortTarifas tarifas).head? = some a ∧ a.limite_min ≠ 0) ∨
  (∃ i a, (sortTarifas tarifas).get? i = some a ∧ i + 1 < (sortTarifas tarifas).length ∧
    a.limite_max = none) ∨
  (∃ i a b, (sortTarifas tarifas).get? i = some a ∧
    (sortTarifas tarifas).get? (i + 1) = some b ∧ a.limite_max ≠ some b.limite_min) ∨
  (∃ a, (sortTarifas tarifas).getLast? = some a ∧ a.limite_max ≠ none)

/-- C8: `validar_tramos_tarifas` fails with `TramosInvalidosError` if and
only if, after sorting by lower bound, the list is empty, or the lowest
tier does not start at 0, or some non-final tier is unbounded, or some
tier's upper bound differs from the next tier's lower bound, or the final
tier is bounded; otherwise it returns without error. -/
theorem c8_validar_tramos_caracterizacion (tarifas : List Tarifa) :
    (∃ e, validar_tramos_tarifas tarifas = Except.error e) ↔ tramosInvalidos tarifas := by
  by_cases hnil : tarifas = []
  · subst hnil
    constructor
    · intro _
      exact Or.inl rfl
    · intro _
      exact ⟨"Debe existir al menos un tramo de tarifa", by simp [validar_tramos_tarifas]⟩
  · obtain ⟨t, ts, hts⟩ : ∃ t ts, sortTarifas tarifas = t :: ts := by
      cases h : sortTarifas tarifas with
      | nil => exact absurd h (sortTarifas_ne_nil tarifas hnil)
      | cons t ts => exact ⟨t, ts, rfl⟩
    rw [show validar_tramos_tarifas tarifas =
        (if t.limite_min ≠ 0 then
          Except.error "El primer tramo debe empezar en 0 kWh"
        else
          match validarConsecutividad (t :: ts) with
          | Except.error e => Except.error e
          | Except.ok _ =>
            match (t :: ts).getLast? with
            | some u =>
              if u.limite_max ≠ none then
                Except.error "El último tramo debe tener límite máximo infinito (NULL)"
              else
                Except.ok ()
            | none => Except.ok ()) by
      simp only [validar_tramos_tarifas, if_neg hnil, hts]]
    by_cases h0 : t.limite_min ≠ 0
    · rw [if_pos h0]
      constructor
      · intro _
        refine Or.inr (Or.inl ⟨t, ?_, h0⟩)
        rw [hts]
        rfl
      · intro _
        exact ⟨_, rfl⟩
    · rw [if_neg h0]
      have h0' : t.limite_min = 0 := not_ne_iff.mp h0
      cases hv : validarConsecutividad (t :: ts) with
      | error e =>
        change (∃ e', Except.error e = Except.error e') ↔ tramosInvalidos tarifas
        constructor
        · intro _
          obtain ⟨i, x, y, hx, hy, hne⟩ :=
            (validarConsecutividad_error_iff (t :: ts)).mp ⟨e, hv⟩
          refine Or.inr (Or.inr (Or.inr (Or.inl ⟨i, x, y, ?_, ?_, hne⟩)))
          · rw [hts]; exact hx
          · rw [hts]; exact hy
        · intro _
          exact ⟨e, rfl⟩
      | ok u =>
        obtain ⟨last, hlast⟩ : ∃ last, (t :: ts).getLast? = some last := by
          cases hl : (t :: ts).getLast? with
          | none => exact absurd hl (by simp [List.getLast?_isSome])
          | some last => exact ⟨last, rfl⟩
        rw [hlast]
        change (∃ e, (if last.limite_max ≠ none then
            Except.error "El último tramo debe tener límite máximo infinito (NULL)"
          else Except.ok ()) = Except.error e) ↔ tramosInvalidos tarifas
        by_cases hmaxlast : last.limite_max ≠ none
        · rw [if_pos hmaxlast]
          constructor
          · intro _
            refine Or.inr (Or.inr (Or.inr (Or.inr ⟨last, ?_, hmaxlast⟩)))
            rw [hts]
            exact hlast
          · intro _
            exact ⟨_, rfl⟩
        · rw [if_neg hmaxlast]
          have hnoerr : ¬∃ i a b, (t :: ts).get? i = some a ∧
              (t :: ts).get? (i + 1) = some b ∧ a.limite_max ≠ some b.limite_min := by
            rw [← validarConsecutividad_error_iff]
            rintro ⟨e, he⟩
            rw [hv] at he
            exact Except.noConfusion he
          constructor
          · rintro ⟨e, he⟩
            exact Except.noConfusion he
          · rintro (h | h | h | h | h)
            · exact absurd h hnil
            · obtain ⟨a, ha, hne⟩ := h
              rw [hts, List.head?_cons, Option.some_inj] at ha
              subst ha
              exact absurd h0' hne
            · obtain ⟨i, a, hia, hlen, hnone⟩ := h
              rw [hts] at hia hlen
              obtain ⟨b, hb⟩ : ∃ b, (t :: ts).get? (i + 1) = some b := by
                rw [List.get?_eq_get hlen]
                exact ⟨_, rfl⟩
              exact (hnoerr ⟨i, a, b, hia, hb, by simp [hnone]⟩).elim
            · obtain ⟨i, a, b, hia, hib, hne⟩ := h
              rw [hts] at hia hib
              exact (hnoerr ⟨i, a, b, hia, hib, hne⟩).elim
            · obtain ⟨a, ha, hne⟩ := h
              rw [hts, hlast, Option.some_inj] at ha
              subst ha
              exact (hne (not_ne_iff.mp hmaxlast)).elim

/-! ## Cascade recalculation: frame and stability lemmas (for C3, C4, C5) -/

/-- The fields of a reading that the cascade recalculator never writes:
`id`, `medidor_id`, `autor_user_id`, the two dates, `lectura_actual` and
`created_at`. -/
def camposFijos (l : Lectura) :
    Option ℤ × ℤ × ℤ × Option ℤ × Option ℤ × ℚ × Option ℚ :=
  (l.id, l.medidor_id, l.autor_user_id, l.fecha_inicio, l.fecha_fin,
    l.lectura_actual, l.created_at)

theorem pasoAnterior_eq (prev : ℚ) (l : Lectura) :
    pasoAnterior prev l =
      ({ l with lectura_anterior := prev }, decide (l.lectura_anterior ≠ prev)) := by
  unfold pasoAnterior
  by_cases h : l.lectura_anterior ≠ prev
  · rw [if_pos h]
    simp [h]
  · rw [if_neg h]
    have h2 : prev = l.lectura_anterior := (not_ne_iff.mp h).symm
    subst h2
    simp

theorem pasoAnterior_noop (prev : ℚ) (l : Lectura) (h : l.lectura_anterior = prev) :
    pasoAnterior prev l = (l, false) := by
  unfold pasoAnterior
  rw [if_neg (not_ne_iff.mpr h)]

theorem pasoAnterior_camposFijos (prev : ℚ) (l : Lectura) :
    camposFijos (pasoAnterior prev l).1 = camposFijos l := by
  unfold pasoAnterior
  split <;> rfl

theorem pasoConsumo_camposFijos (l : Lectura) (m : Bool) :
    camposFijos (pasoConsumo l m).1 = camposFijos l := by
  unfold pasoConsumo
  split
  · split <;> rfl
  · rfl

/-- Step `pasoConsumo` can only write `consumo_kwh` and `es_rollover`. -/
theorem pasoConsumo_resto (l : Lectura) (m : Bool) :
    (pasoConsumo l m).1.lectura_anterior = l.lectura_anterior ∧
    (pasoConsumo l m).1.lectura_actual = l.lectura_actual ∧
    (pasoConsumo l m).1.importe_total = l.importe_total ∧
    (pasoConsumo l m).1.updated_at = l.updated_at := by
  unfold pasoConsumo
  split
  · split <;> exact ⟨rfl, rfl, rfl, rfl⟩
  · exact ⟨rfl, rfl, rfl, rfl⟩

theorem pasoConsumo_error_eq (l : Lectura) (m : Bool) (e : ConsumoError)
    (h : calcular_consumo l.lectura_anterior l.lectura_actual l.es_rollover =
      Except.error e) :
    pasoConsumo l m = (l, m) := by
  unfold pasoConsumo
  rw [h]

theorem pasoImporte_camposFijos (tarifas : List Tarifa) (l : Lectura) (m : Bool) :
    camposFijos (pasoImporte tarifas l m).1 = camposFijos l := by
  simp only [pasoImporte]
  split <;> rfl

/-- Step `pasoImporte` can only write `importe_total`. -/
theorem pasoImporte_resto (tarifas : List Tarifa) (l : Lectura) (m : Bool) :
    (pasoImporte tarifas l m).1.lectura_anterior = l.lectura_anterior ∧
    (pasoImporte tarifas l m).1.lectura_actual = l.lectura_actual ∧
    (pasoImporte tarifas l m).1.consumo_kwh = l.consumo_kwh ∧
    (pasoImporte tarifas l m).1.es_rollover = l.es_rollover ∧
    (pasoImporte tarifas l m).1.updated_at = l.updated_at := by
  simp only [pasoImporte]
  split <;> exact ⟨rfl, rfl, rfl, rfl, rfl⟩

theorem procesarLectura_camposFijos (tarifas : List Tarifa) (now prev : ℚ) (l : Lectura) :
    camposFijos (procesarLectura tarifas now prev l).1 = camposFijos l := by
  simp only [procesarLectura]
  have h3 := pasoImporte_camposFijos tarifas
    (pasoConsumo (pasoAnterior prev l).1 (pasoAnterior prev l).2).1
    (pasoConsumo (pasoAnterior prev l).1 (pasoAnterior prev l).2).2
  have h2 := pasoConsumo_camposFijos (pasoAnterior prev l).1 (pasoAnterior prev l).2
  have h1 := pasoAnterior_camposFijos prev l
  split
  · exact (h3.trans h2).trans h1
  · exact (h3.trans h2).trans h1

theorem procesarLectura_lectura_actual (tarifas : List Tarifa) (now prev : ℚ) (l : Lectura) :
    (procesarLectura tarifas now prev l).1.lectura_actual = l.lectura_actual :=
  congrArg (fun x => x.2.2.2.2.2.1) (procesarLectura_camposFijos tarifas now prev l)

theorem recalcLoop_length (tarifas : List Tarifa) (now : ℚ) (prev : ℚ) (ls : List Lectura) :
    (recalcLoop tarifas now prev ls).1.length = ls.length := by
  induction ls generalizing prev with
  | nil => rfl
  | cons l ls ih =>
    simp only [recalcLoop, List.length_cons]
    rw [ih]

theorem recalcLoop_camposFijos (tarifas : List Tarifa) (now : ℚ) (prev : ℚ)
    (ls : List Lectura) (i : ℕ) :
    ((recalcLoop tarifas now prev ls).1.get? i).map camposFijos =
      (ls.get? i).map camposFijos := by
  induction ls generalizing prev i with
  | nil => rfl
  | cons l ls ih =>
    cases i with
    | zero =>
      simp only [recalcLoop, List.get?_cons_zero, Option.map_some']
      rw [procesarLectura_camposFijos]
    | succ i =>
      simp only [recalcLoop, List.get?_cons_succ]
      exact ih _ _

/-! ### Case analysis of `calcular_consumo` (helper lemmas) -/

theorem calcular_consumo_normal (prev a : ℚ) (conf : Bool) (h : prev ≤ a) :
    calcular_consumo prev a conf = Except.ok (a - prev, false) := by
  unfold calcular_consumo detectar_rollover
  rw [if_pos h]
  by_cases hc : a - prev = 0 <;> simp [hc]

theorem calcular_consumo_rollover (prev a : ℚ) (h1 : ¬prev ≤ a)
    (h2 : MAX_MEDIDOR * UMBRAL_ROLLOVER ≤ prev) :
    calcular_consumo prev a false =
      Except.error (ConsumoError.rolloverNoConfirmado ((MAX_MEDIDOR - prev) + a)) ∧
    calcular_consumo prev a true = Except.ok ((MAX_MEDIDOR - prev) + a, true) := by
  unfold calcular_consumo detectar_rollover
  rw [if_neg h1]
  simp only []
  rw [if_pos h2]
  constructor <;> simp

theorem calcular_consumo_anomalo (prev a : ℚ) (conf : Bool) (h1 : ¬prev ≤ a)
    (h2 : ¬MAX_MEDIDOR * UMBRAL_ROLLOVER ≤ prev) :
    calcular_consumo prev a conf =
      Except.error (ConsumoError.lecturaIncoherente prev a) := by
  unfold calcular_consumo detectar_rollover
  rw [if_neg h1]
  simp only []
  rw [if_neg h2]
  simp

/-- An ok result of resolution is reproduced when re-resolving with the
returned rollover flag as the confirmation input. -/
theorem calcular_consumo_ok_stable (prev a c : ℚ) (conf ro : Bool)
    (h : calcular_consumo prev a conf = Except.ok (c, ro)) :
    calcular_consumo prev a ro = Except.ok (c, ro) := by
  by_cases hge : prev ≤ a
  · rw [calcular_consumo_normal prev a conf hge] at h
    injection h with h2
    rw [Prod.mk.injEq] at h2
    obtain ⟨hc, hro⟩ := h2
    subst hc
    subst hro
    exact calcular_consumo_normal prev a false hge
  · by_cases humb : MAX_MEDIDOR * UMBRAL_ROLLOVER ≤ prev
    · cases conf with
      | false =>
        rw [(calcular_consumo_rollover prev a hge humb).1] at h
        exact Except.noConfusion h
      | true =>
        rw [(calcular_consumo_rollover prev a hge humb).2] at h
        injection h with h2
        rw [Prod.mk.injEq] at h2
        obtain ⟨hc, hro⟩ := h2
        subst hc
        subst hro
        exact (calcular_consumo_rollover prev a hge humb).2
    · rw [calcular_consumo_anomalo prev a conf hge humb] at h
      exact Except.noConfusion h

/-! ### Stability of a recalculated reading -/

/-- A reading whose stored consumption is within the epsilon of what
re-resolution would produce (vacuously stable when resolution fails). -/
def consumoEstable (l : Lectura) : Prop :=
  ∀ c ro, calcular_consumo l.lectura_anterior l.lectura_actual l.es_rollover =
    Except.ok (c, ro) → |l.consumo_kwh - c| ≤ epsilonRecalculo

/-- A reading whose stored billed amount is within the epsilon of the
recomputed one. -/
def importeEstable (tarifas : List Tarifa) (l : Lectura) : Prop :=
  |l.importe_total - calcular_importe l.consumo_kwh tarifas| ≤ epsilonRecalculo

theorem pasoConsumo_noop (l : Lectura) (m : Bool) (h : consumoEstable l) :
    pasoConsumo l m = (l, m) := by
  unfold pasoConsumo
  split
  · rename_i c ro hcc
    rw [if_neg (not_lt.mpr (h c ro hcc))]
  · rfl

theorem pasoConsumo_consumoEstable (l : Lectura) (m : Bool) :
    consumoEstable (pasoConsumo l m).1 := by
  unfold pasoConsumo
  split
  · rename_i c ro hcc
    by_cases hgt : |l.consumo_kwh - c| > epsilonRecalculo
    · rw [if_pos hgt]
      intro c' ro' hok'
      have hstable := calcular_consumo_ok_stable l.lectura_anterior l.lectura_actual c
        l.es_rollover ro hcc
      have hok'' : calcular_consumo l.lectura_anterior l.lectura_actual ro =
          Except.ok (c', ro') := hok'
      rw [hstable] at hok''
      injection hok'' with h2
      rw [Prod.mk.injEq] at h2
      obtain ⟨hc, _⟩ := h2
      subst hc
      show |c - c| ≤ epsilonRecalculo
      rw [show epsilonRecalculo = (0.01 : ℚ) from rfl]
      norm_num
    · rw [if_neg hgt]
      intro c' ro' hok'
      have hok'' : calcular_consumo l.lectura_anterior l.lectura_actual l.es_rollover =
          Except.ok (c', ro') := hok'
      rw [hcc] at hok''
      injection hok'' with h2
      rw [Prod.mk.injEq] at h2
      obtain ⟨hc, _⟩ := h2
      subst hc
      exact not_lt.mp hgt
  · rename_i e hcc
    intro c ro hok
    have hok' : calcular_consumo l.lectura_anterior l.lectura_actual l.es_rollover =
        Except.ok (c, ro) := hok
    rw [hcc] at hok'
    exact Except.noConfusion hok'

theorem pasoImporte_noop (tarifas : List Tarifa) (l : Lectura) (m : Bool)
    (h : importeEstable tarifas l) :
    pasoImporte tarifas l m = (l, m) := by
  simp only [pasoImporte]
  rw [if_neg (not_lt.mpr h)]

theorem pasoImporte_importeEstable (tarifas : List Tarifa) (l : Lectura) (m : Bool) :
    importeEstable tarifas (pasoImporte tarifas l m).1 := by
  simp only [pasoImporte]
  by_cases hgt : |l.importe_total - calcular_importe l.consumo_kwh tarifas| > epsilonRecalculo
  · rw [if_pos hgt]
    unfold importeEstable
    simp
    rw [show epsilonRecalculo = (0.01 : ℚ) from rfl]
    norm_num
  · rw [if_neg hgt]
    exact not_lt.mp hgt

theorem pasoImporte_consumoEstable (tarifas : List Tarifa) (l : Lectura) (m : Bool)
    (h : consumoEstable l) :
    consumoEstable (pasoImporte tarifas l m).1 := by
  simp only [pasoImporte]
  split
  · exact h
  · exact h

/-- After one full processing step the reading's `lectura_anterior` is the
previous reading's `lectura_actual`. -/
theorem procesarLectura_anterior (tarifas : List Tarifa) (now prev : ℚ) (l : Lectura) :
    (procesarLectura tarifas now prev l).1.lectura_anterior = prev := by
  simp only [procesarLectura, pasoAnterior_eq]
  have h2 := pasoConsumo_resto { l with lectura_anterior := prev }
    (decide (l.lectura_anterior ≠ prev))
  have h3 := pasoImporte_resto tarifas
    (pasoConsumo { l with lectura_anterior := prev } (decide (l.lectura_anterior ≠ prev))).1
    (pasoConsumo { l with lectura_anterior := prev } (decide (l.lectura_anterior ≠ prev))).2
  split
  · exact (h3.1.trans h2.1 : _)
  · exact (h3.1.trans h2.1 : _)

theorem procesarLectura_consumoEstable (tarifas : List Tarifa) (now prev : ℚ) (l : Lectura) :
    consumoEstable (procesarLectura tarifas now prev l).1 := by
  simp only [procesarLectura]
  have h2 := pasoConsumo_consumoEstable (pasoAnterior prev l).1 (pasoAnterior prev l).2
  have h3 := pasoImporte_consumoEstable tarifas
    (pasoConsumo (pasoAnterior prev l).1 (pasoAnterior prev l).2).1
    (pasoConsumo (pasoAnterior prev l).1 (pasoAnterior prev l).2).2 h2
  split
  · exact h3
  · exact h3

theorem procesarLectura_importeEstable (tarifas : List Tarifa) (now prev : ℚ) (l : Lectura) :
    importeEstable tarifas (procesarLectura tarifas now prev l).1 := by
  simp only [procesarLectura]
  have h3 := pasoImporte_importeEstable tarifas
    (pasoConsumo (pasoAnterior prev l).1 (pasoAnterior prev l).2).1
    (pasoConsumo (pasoAnterior prev l).1 (pasoAnterior prev l).2).2
  split
  · exact h3
  · exact h3

/-- Re-processing an already processed reading with the same previous value
changes nothing and does not mark it modified. -/
theorem procesarLectura_twice (tarifas : List Tarifa) (now now' prev : ℚ) (l : Lectura) :
    procesarLectura tarifas now' prev (procesarLectura tarifas now prev l).1 =
      ((procesarLectura tarifas now prev l).1, false) := by
  have ha := procesarLectura_anterior tarifas now prev l
  have hc := procesarLectura_consumoEstable tarifas now prev l
  have hi := procesarLectura_importeEstable tarifas now prev l
  conv_lhs => rw [procesarLectura]
  rw [pasoAnterior_noop prev _ ha, pasoConsumo_noop _ _ hc, pasoImporte_noop tarifas _ _ hi]
  simp

/-- Re-running the cascade loop over its own output with the same starting
previous value modifies nothing. -/
theorem recalcLoop_twice (tarifas : List Tarifa) (now now' prev : ℚ) (ls : List Lectura) :
    recalcLoop tarifas now' prev (recalcLoop tarifas now prev ls).1 =
      ((recalcLoop tarifas now prev ls).1, []) := by
  induction ls generalizing prev with
  | nil => rfl
  | cons l ls ih =>
    simp only [recalcLoop]
    rw [procesarLectura_twice tarifas now now' prev l]
    simp only []
    rw [ih ((procesarLectura tarifas now prev l).1.lectura_actual)]
    simp

/-! ### Unfolding equations for the top-level recalculator -/

theorem recalcular_guard_eq (lecturas : List Lectura) (tarifas : List Tarifa)
    (desde_indice : ℕ) (now : ℚ)
    (h : lecturas = [] ∨ lecturas.length ≤ desde_indice) :
    recalcular_lecturas_afectadas lecturas tarifas desde_indice now = (lecturas, []) := by
  unfold recalcular_lecturas_afectadas
  rw [if_pos h]

theorem recalcular_fst_eq (lecturas : List Lectura) (tarifas : List Tarifa)
    (desde_indice : ℕ) (now : ℚ)
    (h : ¬(lecturas = [] ∨ lecturas.length ≤ desde_indice)) :
    recalcular_lecturas_afectadas lecturas tarifas desde_indice now =
      (lecturas.take (max desde_indice 1) ++
        (recalcLoop tarifas now
          (((lecturas.get? (max desde_indice 1 - 1)).getD lecturaNula).lectura_actual)
          (lecturas.drop (max desde_indice 1))).1,
       (recalcLoop tarifas now
          (((lecturas.get? (max desde_indice 1 - 1)).getD lecturaNula).lectura_actual)
          (lecturas.drop (max desde_indice 1))).2) := by
  unfold recalcular_lecturas_afectadas
  rw [if_neg h]

/-! ## Claim C3 — frame of the cascade recalculator -/

/-- C3: `recalcular_lecturas_afectadas` preserves the length of the
sequence (never deletes, inserts or reorders), leaves every reading at an
index below `max(desde_indice, 1)` completely unchanged (in particular the
reading at index 0), and on every reading preserves `id`, `medidor_id`,
`autor_user_id`, both dates, `lectura_actual` and `created_at` — i.e. it
can only write `lectura_anterior`, `consumo_kwh`, `importe_total`,
`es_rollover` and `updated_at`. -/
theorem c3_recalculo_frame (lecturas : List Lectura) (tarifas : List Tarifa)
    (desde_indice : ℕ) (now : ℚ) :
    (recalcular_lecturas_afectadas lecturas tarifas desde_indice now).1.length =
      lecturas.length ∧
    (∀ i, i < max desde_indice 1 →
      (recalcular_lecturas_afectadas lecturas tarifas desde_indice now).1.get? i =
        lecturas.get? i) ∧
    (∀ i,
      ((recalcular_lecturas_afectadas lecturas tarifas desde_indice now).1.get? i).map
          camposFijos =
        (lecturas.get? i).map camposFijos) := by
  by_cases hguard : lecturas = [] ∨ lecturas.length ≤ desde_indice
  · rw [recalcular_guard_eq lecturas tarifas desde_indice now hguard]
    exact ⟨rfl, fun i _ => rfl, fun i => rfl⟩
  · have hne : lecturas ≠ [] := fun h => hguard (Or.inl h)
    have hlt : desde_indice < lecturas.length := lt_of_not_le fun h => hguard (Or.inr h)
    have hpos : 0 < lecturas.length := List.length_pos.mpr hne
    have hlentake : (lecturas.take (max desde_indice 1)).length = max desde_indice 1 := by
      rw [List.length_take]
      omega
    rw [recalcular_fst_eq lecturas tarifas desde_indice now hguard]
    refine ⟨?_, ?_, ?_⟩
    · rw [List.length_append, hlentake, recalcLoop_length, List.length_drop]
      omega
    · intro i hi
      rw [List.get?_append (by rw [hlentake]; exact hi), List.get?_take hi]
    · intro i
      by_cases hi : i < max desde_indice 1
      · rw [List.get?_append (by rw [hlentake]; exact hi), List.get?_take hi]
      · rw [List.get?_append_right (by rw [hlentake]; omega), hlentake,
          recalcLoop_camposFijos, List.get?_drop,
          show max desde_indice 1 + (i - max desde_indice 1) = i from by omega]

/-- Concrete two-reading sequence for the cascade witnesses. -/
def lecturasEjemplo : List Lectura :=
  [ ⟨some 1, 1, 7, none, none, 0, 100, 100, 40, false, some 0, none⟩,
    ⟨some 2, 1, 7, none, none, 100, 250, 150, 105, false, some 1, none⟩ ]

/-- C3 witness: with `desde_indice = 0`, the reading at index 0 of a
concrete two-reading sequence is untouched by recalculation. -/
theorem c3_recalculo_frame_witness :
    (recalcular_lecturas_afectadas lecturasEjemplo TARIFAS_UNE_DEFAULT 0 99).1.get? 0 =
      lecturasEjemplo.get? 0 :=
  (c3_recalculo_frame lecturasEjemplo TARIFAS_UNE_DEFAULT 0 99).2.1 0 (by decide)

/-! ## Claim C4 — a failed resolution leaves derived fields untouched -/

/-- C4: if re-resolution fails on a reading (raises `LecturaIncoherenteError`
or `RolloverNoConfirmadoError`), that reading's `consumo_kwh` and
`es_rollover` keep their previous values, and recalculation does not abort:
the loop still processes the readings after it (the rewritten list continues
with the processed tail and keeps the full length). -/
theorem c4_fallo_resolucion (tarifas : List Tarifa) (now prev : ℚ) (l : Lectura)
    (ls : List Lectura) (e : ConsumoError)
    (h : calcular_consumo prev l.lectura_actual l.es_rollover = Except.error e) :
    (procesarLectura tarifas now prev l).1.consumo_kwh = l.consumo_kwh ∧
    (procesarLectura tarifas now prev l).1.es_rollover = l.es_rollover ∧
    (recalcLoop tarifas now prev (l :: ls)).1 =
      (procesarLectura tarifas now prev l).1 ::
        (recalcLoop tarifas now l.lectura_actual ls).1 ∧
    (recalcLoop tarifas now prev (l :: ls)).1.length = (l :: ls).length := by
  have hl2 : pasoConsumo { l with lectura_anterior := prev }
      (decide (l.lectura_anterior ≠ prev)) =
      ({ l with lectura_anterior := prev }, decide (l.lectura_anterior ≠ prev)) :=
    pasoConsumo_error_eq _ _ e h
  have h3 := pasoImporte_resto tarifas { l with lectura_anterior := prev }
    (decide (l.lectura_anterior ≠ prev))
  refine ⟨?_, ?_, ?_, recalcLoop_length tarifas now prev (l :: ls)⟩
  · simp only [procesarLectura, pasoAnterior_eq, hl2]
    split
    · exact h3.2.2.1
    · exact h3.2.2.1
  · simp only [procesarLectura, pasoAnterior_eq, hl2]
    split
    · exact h3.2.2.2.1
    · exact h3.2.2.2.1
  · simp only [recalcLoop]
    rw [procesarLectura_lectura_actual]

/-- Concrete anomalous reading (decrease far from the meter maximum, not
flagged as rollover) for the C4 witness. -/
def lecturaC4 : Lectura :=
  ⟨none, 1, 7, none, none, 0, 50, 7, 3, false, none, none⟩

/-- C4 witness: resolution fails on `lecturaC4` after the previous value
`100`, and its consumption `7` and rollover flag `false` survive the
processing step. -/
theorem c4_fallo_resolucion_witness :
    (procesarLectura TARIFAS_UNE_DEFAULT 99 100 lecturaC4).1.consumo_kwh = 7 ∧
    (procesarLectura TARIFAS_UNE_DEFAULT 99 100 lecturaC4).1.es_rollover = false := by
  have h := c4_fallo_resolucion TARIFAS_UNE_DEFAULT 99 100 lecturaC4 []
    (ConsumoError.lecturaIncoherente 100 50)
    (by norm_num [lecturaC4, calcular_consumo, detectar_rollover, MAX_MEDIDOR, UMBRAL_ROLLOVER])
  exact ⟨h.1, h.2.1⟩

/-! ## Claim C5 — idempotence of the cascade recalculator -/

/-- C5: recalculation is idempotent — running
`recalcular_lecturas_afectadas` a second time on the sequence produced by a
first run (same tariffs, same starting index) reports an empty list of
modified readings. -/
theorem c5_recalculo_idempotente (lecturas : List Lectura) (tarifas : List Tarifa)
    (desde_indice : ℕ) (now now' : ℚ) :
    (recalcular_lecturas_afectadas
        (recalcular_lecturas_afectadas lecturas tarifas desde_indice now).1
        tarifas desde_indice now').2 = [] := by
  by_cases hguard : lecturas = [] ∨ lecturas.length ≤ desde_indice
  · rw [recalcular_guard_eq lecturas tarifas desde_indice now hguard]
    show (recalcular_lecturas_afectadas lecturas tarifas desde_indice now').2 = []
    rw [recalcular_guard_eq lecturas tarifas desde_indice now' hguard]
  · have hne : lecturas ≠ [] := fun h => hguard (Or.inl h)
    have hlt : desde_indice < lecturas.length := lt_of_not_le fun h => hguard (Or.inr h)
    have hpos : 0 < lecturas.length := List.length_pos.mpr hne
    have hlentake : (lecturas.take (max desde_indice 1)).length = max desde_indice 1 := by
      rw [List.length_take]
      omega
    rw [recalcular_fst_eq lecturas tarifas desde_indice now hguard]
    show (recalcular_lecturas_afectadas
        (lecturas.take (max desde_indice 1) ++
          (recalcLoop tarifas now
            (((lecturas.get? (max desde_indice 1 - 1)).getD lecturaNula).lectura_actual)
            (lecturas.drop (max desde_indice 1))).1)
        tarifas desde_indice now').2 = []
    have hlen' : (lecturas.take (max desde_indice 1) ++
        (recalcLoop tarifas now
          (((lecturas.get? (max desde_indice 1 - 1)).getD lecturaNula).lectura_actual)
          (lecturas.drop (max desde_indice 1))).1).length = lecturas.length := by
      rw [List.length_append, hlentake, recalcLoop_length, List.length_drop]
      omega
    have hguard' : ¬((lecturas.take (max desde_indice 1) ++
        (recalcLoop tarifas now
          (((lecturas.get? (max desde_indice 1 - 1)).getD lecturaNula).lectura_actual)
          (lecturas.drop (max desde_indice 1))).1) = [] ∨
        (lecturas.take (max desde_indice 1) ++
          (recalcLoop tarifas now
            (((lecturas.get? (max desde_indice 1 - 1)).getD lecturaNula).lectura_actual)
            (lecturas.drop (max desde_indice 1))).1).length ≤ desde_indice) := by
      rintro (habs | habs)
      · rw [habs] at hlen'
        have h0 : lecturas.length = 0 := hlen'.symm
        omega
      · rw [hlen'] at habs
        omega
    have hdrop' : (lecturas.take (max desde_indice 1) ++
        (recalcLoop tarifas now
          (((lecturas.get? (max desde_indice 1 - 1)).getD lecturaNula).lectura_actual)
          (lecturas.drop (max desde_indice 1))).1).drop (max desde_indice 1) =
        (recalcLoop tarifas now
          (((lecturas.get? (max desde_indice 1 - 1)).getD lecturaNula).lectura_actual)
          (lecturas.drop (max desde_indice 1))).1 :=
      List.drop_left' hlentake
    have hget' : (lecturas.take (max desde_indice 1) ++
        (recalcLoop tarifas now
          (((lecturas.get? (max desde_indice 1 - 1)).getD lecturaNula).lectura_actual)
          (lecturas.drop (max desde_indice 1))).1).get? (max desde_indice 1 - 1) =
        lecturas.get? (max desde_indice 1 - 1) := by
      rw [List.get?_append (by rw [hlentake]; omega), List.get?_take (by omega)]
    rw [recalcular_fst_eq _ tarifas desde_indice now' hguard']
    show (recalcLoop tarifas now'
        ((((lecturas.take (max desde_indice 1) ++
          (recalcLoop tarifas now
            (((lecturas.get? (max desde_indice 1 - 1)).getD lecturaNula).lectura_actual)
            (lecturas.drop (max desde_indice 1))).1).get?
              (max desde_indice 1 - 1)).getD lecturaNula).lectura_actual)
        ((lecturas.take (max desde_indice 1) ++
          (recalcLoop tarifas now
            (((lecturas.get? (max desde_indice 1 - 1)).getD lecturaNula).lectura_actual)
            (lecturas.drop (max desde_indice 1))).1).drop (max desde_indice 1))).2 = []
    rw [hdrop', hget', recalcLoop_twice]

end ElectricTariffs
